import Mathlib

/-!
Shallow embedding of the getresponse-python client library
(src/getresponse/client.py, account.py, campaign.py, contact.py,
custom_field.py, tag.py).

The library is Python 2 code.  JSON values are modelled by the inductive
`JVal` (numbers restricted to integers: every numeric value the claims
touch is an integer).  Python `None` for an attribute that was never
assigned is modelled by `Option.none`; `none_to_false` is modelled by
`noneToFalse` on `JVal`.  Python exceptions (AssertionError, KeyError,
TypeError and the typed API errors from excs.py) are modelled by the
inductive `PyExc`; a fallible piece of code returns `Except PyExc`.
Network traffic is modelled by fetch oracles passed as function
arguments; the paginator additionally takes a fuel argument, since the
source `while` loop runs until a page comes back empty.
-/

/-- JSON values as delivered by `response.json()` and as found in request
bodies.  Numbers are restricted to integers. -/
inductive JVal where
  | null
  | bool (b : Bool)
  | str (s : String)
  | num (n : Int)
  | arr (xs : List JVal)
  | obj (fields : List (String × JVal))

/-- Python truthiness of a JSON value: None, False, empty string, zero,
empty list and empty dict are falsy. -/
def JVal.truthy : JVal → Bool
  | .null => false
  | .bool b => b
  | .str s => !s.isEmpty
  | .num n => n != 0
  | .arr xs => !xs.isEmpty
  | .obj kvs => !kvs.isEmpty

/-- Python exceptions raised by the library: assertion failures, dict
key errors, type errors, and the typed API errors of excs.py raised by
`GetResponse._request` (each carries the message and the parsed error
payload), plus the bare `Exception` used for unrecognized codes. -/
inductive PyExc where
  | assertionError (msg : String)
  | keyError (key : String)
  | typeError
  | validationError (msg : String) (response : JVal)
  | relatedRecordNotFoundError (msg : String) (response : JVal)
  | notFoundError (msg : String) (response : JVal)
  | forbiddenError (msg : String) (response : JVal)
  | uniquePropertyError (msg : String) (response : JVal)
  | exception (msg : String)

/-- Keyword-argument mapping, i.e. a Python dict with string keys (the
`**kwargs` a `_create` method receives).  Python dicts preserve
insertion order and have unique keys; lookups take the first match. -/
abbrev KwArgs : Type := List (String × JVal)

/-- First-match lookup in an association list (Python `d[k]` / `d.get(k)`
value position). -/
def lookupKey {α : Type} : List (String × α) → String → Option α
  | [], _ => none
  | (k, v) :: rest, key => if k = key then some v else lookupKey rest key

/-- Python `k in d`. -/
def containsKey {α : Type} (l : List (String × α)) (k : String) : Bool :=
  (lookupKey l k).isSome

/-- Python `d[k] = v`: replace the first binding of `k`, or append a new
binding at the end (dict insertion order). -/
def dictSet {α : Type} : List (String × α) → String → α → List (String × α)
  | [], key, v => [(key, v)]
  | (k, w) :: rest, key, v =>
    if k = key then (key, v) :: rest else (k, w) :: dictSet rest key v

/-- Python `d.get(k)` on a JSON value: `None` when the key is absent.
(In the source the receiver is always a dict; `.get` on a non-dict,
which would raise AttributeError, does not occur.) -/
def jsonGet : JVal → String → Option JVal
  | .obj kvs, k => lookupKey kvs k
  | _, _ => none

/-- Keyword access `kwargs[k]`, raising KeyError when absent. -/
def getKw (kw : KwArgs) (k : String) : Except PyExc JVal :=
  match lookupKey kw k with
  | some v => .ok v
  | none => .error (.keyError k)

/-- The staticmethod `none_to_false` shared by all five managers:
`False if value is None else value`. -/
def noneToFalse : JVal → JVal
  | .null => .bool false
  | v => v

/-- One optional attribute assignment: `if k in kwargs: x = none_to_false(kwargs[k])`,
with the attribute left at its `None` default otherwise. -/
def mapOpt (kw : KwArgs) (k : String) : Option JVal :=
  (lookupKey kw k).map noneToFalse

/-- The `raw_data` attribute every entity stores:
`{'args': args if args else None, 'kwargs': kwargs if kwargs else None}`.
Through the managers the positional `args` tuple is always empty. -/
structure RawData where
  args : Option (List JVal)
  kwargs : Option KwArgs

/-- Builds `raw_data` for a `_create` call (empty `args`). -/
def mkRawData (kw : KwArgs) : RawData :=
  { args := none, kwargs := if kw.isEmpty then none else some kw }

/-- Result of `dateutil.parser.parse`.  The external dateutil library is
modelled abstractly: it succeeds on any string (keeping the string) and
raises TypeError on a non-string argument.  No claim depends on parse
failures for ill-formed date strings. -/
structure PyDateTime where
  iso : String

/-- Modelled external call `dateutil.parser.parse`. -/
def dateutilParse : JVal → Except PyExc PyDateTime
  | .str s => .ok { iso := s }
  | _ => .error .typeError

/-- The pattern `if k in kwargs: x = none_to_false(kwargs[k]); if x: attr = parse(x)`
used for `createdOn` / `changedOn`. -/
def parseDateField (kw : KwArgs) (k : String) : Except PyExc (Option PyDateTime) :=
  match lookupKey kw k with
  | none => .ok none
  | some v =>
    let c := noneToFalse v
    if c.truthy then
      match dateutilParse c with
      | .ok d => .ok (some d)
      | .error e => .error e
    else .ok none

/-- A manager's `create` returns a single entity for a dict payload and a
list of entities for a list payload. -/
inductive OneOrMany (α : Type) where
  | one (a : α)
  | many (xs : List α)

/-- Shared list branch of the managers' `create`: map `_create(**item)`
over the items; a non-dict item makes `**item` raise TypeError. -/
def createEach {α : Type} (f : KwArgs → Except PyExc α) : List JVal → Except PyExc (List α)
  | [] => .ok []
  | it :: rest =>
    match it with
    | .obj kw =>
      match f kw with
      | .error e => .error e
      | .ok a =>
        match createEach f rest with
        | .error e => .error e
        | .ok xs => .ok (a :: xs)
    | _ => .error .typeError

/-- Shared shape of the managers' `create(obj)`: list payloads map
`_create` over the items, dict payloads call `_create(**obj)`, anything
else makes `**obj` raise TypeError. -/
def managerCreate {α : Type} (f : KwArgs → Except PyExc α) : JVal → Except PyExc (OneOrMany α)
  | .arr items =>
    match createEach f items with
    | .error e => .error e
    | .ok xs => .ok (.many xs)
  | .obj kw =>
    match f kw with
    | .error e => .error e
    | .ok a => .ok (.one a)
  | _ => .error .typeError

/-! ## Account (account.py) -/

/-- Account entity (attributes of `Account.__init__` that `_create` can
assign; the mandatory id comes from `kwargs['accountId']`). -/
structure Account where
  id : JVal
  raw_data : RawData
  first_name : Option JVal
  last_name : Option JVal
  email : Option JVal
  phone : Option JVal
  company_name : Option JVal
  state : Option JVal
  city : Option JVal
  zip_code : Option JVal
  country_code : Option JVal
  industry_tag : Option JVal
  number_of_employees : Option JVal
  time_format : Option JVal
  href : Option JVal

/-- `AccountManager._create`. -/
def accountCreate1 (kw : KwArgs) : Except PyExc Account :=
  match lookupKey kw "accountId" with
  | none => .error (.keyError "accountId")
  | some idv =>
    .ok { id := idv
          raw_data := mkRawData kw
          first_name := mapOpt kw "firstName"
          last_name := mapOpt kw "lastName"
          email := mapOpt kw "email"
          phone := mapOpt kw "phone"
          company_name := mapOpt kw "companyName"
          state := mapOpt kw "state"
          city := mapOpt kw "city"
          zip_code := mapOpt kw "zipCode"
          country_code := mapOpt kw "countryCode"
          industry_tag := mapOpt kw "industryTag"
          number_of_employees := mapOpt kw "numberOfEmployees"
          time_format := mapOpt kw "timeFormat"
          href := mapOpt kw "href" }

/-- `AccountManager.create`. -/
def accountManagerCreate : JVal → Except PyExc (OneOrMany Account) :=
  managerCreate accountCreate1

/-! ## Campaign (campaign.py) -/

/-- Campaign entity. -/
structure Campaign where
  id : JVal
  raw_data : RawData
  href : Option JVal
  name : Option JVal
  language_code : Option JVal
  is_default : Option JVal
  created_on : Option PyDateTime
  description : Option JVal
  confirmation : Option JVal
  profile : Option JVal
  postal : Option JVal
  opting_types : Option JVal
  subscription_notifications : Option JVal

/-- `CampaignManager._create`. -/
def campaignCreate1 (kw : KwArgs) : Except PyExc Campaign :=
  match lookupKey kw "campaignId" with
  | none => .error (.keyError "campaignId")
  | some idv =>
    match parseDateField kw "createdOn" with
    | .error e => .error e
    | .ok created_on =>
      .ok { id := idv
            raw_data := mkRawData kw
            href := mapOpt kw "href"
            name := mapOpt kw "name"
            language_code := mapOpt kw "languageCode"
            is_default := mapOpt kw "isDefault"
            created_on := created_on
            description := mapOpt kw "description"
            confirmation := mapOpt kw "confirmation"
            profile := mapOpt kw "profile"
            postal := mapOpt kw "postal"
            opting_types := mapOpt kw "optinTypes"
            subscription_notifications := mapOpt kw "subscriptionNotifications" }

/-- `CampaignManager.create`. -/
def campaignManagerCreate : JVal → Except PyExc (OneOrMany Campaign) :=
  managerCreate campaignCreate1

/-! ## CustomField (custom_field.py) -/

/-- CustomField entity. -/
structure CustomField where
  id : JVal
  raw_data : RawData
  href : Option JVal
  name : Option JVal
  type : Option JVal
  value_type : Option JVal
  format : Option JVal
  field_type : Option JVal
  hidden : Option JVal
  values : Option JVal

/-- `CustomFieldManager._create`. -/
def customFieldCreate1 (kw : KwArgs) : Except PyExc CustomField :=
  match lookupKey kw "customFieldId" with
  | none => .error (.keyError "customFieldId")
  | some idv =>
    .ok { id := idv
          raw_data := mkRawData kw
          href := mapOpt kw "href"
          name := mapOpt kw "name"
          type := mapOpt kw "type"
          value_type := mapOpt kw "valueType"
          format := mapOpt kw "format"
          field_type := mapOpt kw "fieldType"
          hidden := mapOpt kw "hidden"
          values := mapOpt kw "values" }

/-- `CustomFieldManager.create`. -/
def customFieldManagerCreate : JVal → Except PyExc (OneOrMany CustomField) :=
  managerCreate customFieldCreate1

/-! ## Tag (tag.py) -/

/-- Tag entity. -/
structure Tag where
  id : JVal
  raw_data : RawData
  href : Option JVal
  name : Option JVal
  color : Option JVal

/-- `TagManager._create`. -/
def tagCreate1 (kw : KwArgs) : Except PyExc Tag :=
  match lookupKey kw "tagId" with
  | none => .error (.keyError "tagId")
  | some idv =>
    .ok { id := idv
          raw_data := mkRawData kw
          href := mapOpt kw "href"
          name := mapOpt kw "name"
          color := mapOpt kw "color" }

/-- `TagManager.create`. -/
def tagManagerCreate : JVal → Except PyExc (OneOrMany Tag) :=
  managerCreate tagCreate1

/-! ## Contact (contact.py) -/

/-- `Contact.SUBSCRIBER_TYPES`. -/
def SUBSCRIBER_TYPES : List String :=
  ["subscribed", "undelivered", "removed", "unconfirmed"]

/-- Python membership test `value in Contact.SUBSCRIBER_TYPES` (a non-string
value is never equal to one of the strings). -/
def isSubscriberType : JVal → Bool
  | .str s => SUBSCRIBER_TYPES.contains s
  | _ => false

/-- Python indexing `v[0]`: first element of a list, first character of a
string; raises for other types (and IndexError on an empty sequence,
unreachable here behind the truthiness guard). -/
def pyIndex0 : JVal → Except PyExc JVal
  | .arr (x :: _) => .ok x
  | .str s =>
    match s.data with
    | c :: _ => .ok (.str (String.mk [c]))
    | [] => .error .typeError
  | _ => .error .typeError

/-- The `subscribers_type` computation of `ContactManager._create`:
`request_body.get('subscribersType')[0]` when the request body and that
entry are truthy, `'subscribed'` otherwise. -/
def subscribersTypeOf (request_body : Option JVal) : Except PyExc JVal :=
  match request_body with
  | some rb =>
    if rb.truthy then
      match jsonGet rb "subscribersType" with
      | some sv => if sv.truthy then pyIndex0 sv else .ok (.str "subscribed")
      | none => .ok (.str "subscribed")
    else .ok (.str "subscribed")
  | none => .ok (.str "subscribed")

/-- The `campaign` attribute step of `ContactManager._create`:
`if 'campaign' in kwargs: contact.campaign = campaign_manager.create(none_to_false(kwargs['campaign']))`. -/
def contactCampaignOf (kw : KwArgs) : Except PyExc (Option (OneOrMany Campaign)) :=
  match lookupKey kw "campaign" with
  | none => .ok none
  | some v =>
    match campaignManagerCreate (noneToFalse v) with
    | .error e => .error e
    | .ok c => .ok (some c)

/-- Contact entity. -/
structure Contact where
  id : JVal
  raw_data : RawData
  subscribers_type : JVal
  href : Option JVal
  name : Option JVal
  email : Option JVal
  note : Option JVal
  day_of_cycle : Option JVal
  origin : Option JVal
  created_on : Option PyDateTime
  changed_on : Option PyDateTime
  campaign : Option (OneOrMany Campaign)
  timezone : Option JVal
  ip_address : Option JVal
  activities : Option JVal
  scoring : Option JVal
  custom_field_values : Option JVal
  tags : Option JVal
  engagement_score : Option JVal

/-- `ContactManager._create` (the nested `campaign` data is delegated to
the campaign manager after `none_to_false`). -/
def contactCreate1 (request_body : Option JVal) (request_payload : Option JVal)
    (kw : KwArgs) : Except PyExc Contact :=
  match lookupKey kw "contactId" with
  | none => .error (.keyError "contactId")
  | some idv =>
    match subscribersTypeOf request_body with
    | .error e => .error e
    | .ok st =>
      if isSubscriberType st then
        match parseDateField kw "createdOn" with
        | .error e => .error e
        | .ok created_on =>
          match parseDateField kw "changedOn" with
          | .error e => .error e
          | .ok changed_on =>
            match contactCampaignOf kw with
            | .error e => .error e
            | .ok campaign =>
              .ok { id := idv
                    raw_data := mkRawData kw
                    subscribers_type := st
                    href := mapOpt kw "href"
                    name := mapOpt kw "name"
                    email := mapOpt kw "email"
                    note := mapOpt kw "note"
                    day_of_cycle := mapOpt kw "dayOfCycle"
                    origin := mapOpt kw "origin"
                    created_on := created_on
                    changed_on := changed_on
                    campaign := campaign
                    timezone := mapOpt kw "timeZone"
                    ip_address := mapOpt kw "ipAddress"
                    activities := mapOpt kw "activities"
                    scoring := mapOpt kw "scoring"
                    custom_field_values := mapOpt kw "customFieldValues"
                    tags := mapOpt kw "tags"
                    engagement_score := mapOpt kw "engagementScore" }
      else .error (.assertionError "subscribers_type must be in SUBSCRIBER_TYPES")

/-- `ContactManager.create(obj, request_body, request_payload)`.  In the
list branch each item is created with the request context forwarded; in
the single-dict branch the source calls `self._create(**obj)` without
forwarding `request_body` or `request_payload`. -/
def contactManagerCreate (data : JVal) (request_body request_payload : Option JVal) :
    Except PyExc (OneOrMany Contact) :=
  match data with
  | .arr items =>
    match createEach (contactCreate1 request_body request_payload) items with
    | .error e => .error e
    | .ok xs => .ok (.many xs)
  | .obj kw =>
    match contactCreate1 none none kw with
    | .error e => .error e
    | .ok c => .ok (.one c)
  | _ => .error .typeError

/-! ## Paginator (the shared pagination prelude and loop of
`get_contacts`, `get_campaigns`, `get_custom_fields`, `get_tags` and
`search_contacts` in client.py; the five methods repeat the same code) -/

/-- Query-parameter dict for a page request.  The pagination code only
reads and writes the integer-valued keys `page` and `perPage`; the
`params` mapping a caller passes is modelled restricted to its
integer-valued entries (other entries are carried through untouched by
the source and play no role in any claim). -/
abbrev QParams : Type := List (String × Int)

/-- Python truthiness of an optional integer argument (`None` and `0`
are falsy). -/
def optTruthy : Option Int → Bool
  | some n => n != 0
  | none => false

/-- Result of the pagination prelude: the updated `local_params` plus
the resolved `per_page` and `page` values. -/
structure Resolved where
  params : QParams
  perPage : Option Int
  page : Option Int

/-- The pagination prelude shared by the five paginated methods:

```
local_params = deepcopy(params) if params else {}
if per_page:
    assert 'perPage' not in local_params
    assert 0 < per_page <= 1000
    local_params['perPage'] = per_page
elif 'perPage' in local_params:
    per_page = local_params['perPage']
if per_page:
    per_page = int(per_page)
    local_params['perPage'] = per_page
if page:
    assert 'page' not in local_params
elif 'page' in local_params:
    page = local_params['page']
if page:
    page = int(page)
```

`int()` is the identity on the integer model of the parameter values. -/
def resolvePaging (per_page0 page0 : Option Int) (params : QParams) :
    Except PyExc Resolved :=
  let step1 : Except PyExc (Option Int × QParams) :=
    if optTruthy per_page0 then
      if containsKey params "perPage" then
        .error (.assertionError
          "perPage was found in local_params and in per_page. Use one only.")
      else
        let n := per_page0.getD 0
        if 0 < n ∧ n ≤ 1000 then .ok (some n, dictSet params "perPage" n)
        else .error (.assertionError
          "The maximum number per page is 1000 the minimum is 1.")
    else if containsKey params "perPage" then .ok (lookupKey params "perPage", params)
    else .ok (per_page0, params)
  match step1 with
  | .error e => .error e
  | .ok (per_page1, lp1) =>
    let lp2 := if optTruthy per_page1 then dictSet lp1 "perPage" (per_page1.getD 0) else lp1
    let step2 : Except PyExc (Option Int) :=
      if optTruthy page0 then
        if containsKey lp2 "page" then
          .error (.assertionError
            "page was found in local_params and in page. Use one only.")
        else .ok page0
      else if containsKey lp2 "page" then .ok (lookupKey lp2 "page")
      else .ok page0
    match step2 with
    | .error e => .error e
    | .ok page1 => .ok { params := lp2, perPage := per_page1, page := page1 }

/-- The pagination `while` loop:

```
paged = True
current_page = deepcopy(page) if page else 1
paged_payload = deepcopy(local_params)
while paged and current_page:
    paged_payload['page'] = current_page
    paged = fetch(paged_payload)
    all.extend(paged)
    if page: current_page = False
    else: current_page += 1
```

modelled as fuel recursion (the source loops until a fetch comes back
falsy); the first component is the trace of page-request payloads sent
to the network, the second is `none` if the fuel ran out. -/
def paginateLoop {α : Type} (fetch : QParams → List α) (pageGiven : Bool) :
    Nat → Int → QParams → List QParams × Option (List α)
  | 0, _, _ => ([], none)
  | fuel + 1, currentPage, payload =>
    if currentPage = 0 then ([], some []) else
      let payload2 := dictSet payload "page" currentPage
      let items := fetch payload2
      if pageGiven then ([payload2], some items)
      else if items.isEmpty then ([payload2], some items)
      else
        let rest := paginateLoop fetch pageGiven fuel (currentPage + 1) payload2
        (payload2 :: rest.1, rest.2.map (fun tl => items ++ tl))

/-- A full paginated method call (prelude plus loop).  The network is
the `fetch` oracle (payload of one page request to the page's item
list, i.e. `_request` with the mapped objects already produced). -/
def paginateCall {α : Type} (fetch : QParams → List α) (per_page page : Option Int)
    (params : QParams) (fuel : Nat) :
    List QParams × Except PyExc (Option (List α)) :=
  match resolvePaging per_page page params with
  | .error e => ([], .error e)
  | .ok r =>
    let pageGiven := optTruthy r.page
    let start : Int := if pageGiven then r.page.getD 1 else 1
    let res := paginateLoop fetch pageGiven fuel start r.params
    (res.1, .ok res.2)

/-- `GetResponse.get_contacts(params, per_page, page)` against a fetch
oracle for `/contacts`. -/
def get_contacts {α : Type} (fetch : QParams → List α) (params : QParams)
    (per_page page : Option Int) (fuel : Nat) :
    List QParams × Except PyExc (Option (List α)) :=
  paginateCall fetch per_page page params fuel

/-- `GetResponse.get_campaigns(per_page, page, params)` against a fetch
oracle for `/campaigns`. -/
def get_campaigns {α : Type} (fetch : QParams → List α) (per_page page : Option Int)
    (params : QParams) (fuel : Nat) :
    List QParams × Except PyExc (Option (List α)) :=
  paginateCall fetch per_page page params fuel

/-- `GetResponse.get_custom_fields(per_page, page, params)`. -/
def get_custom_fields {α : Type} (fetch : QParams → List α) (per_page page : Option Int)
    (params : QParams) (fuel : Nat) :
    List QParams × Except PyExc (Option (List α)) :=
  paginateCall fetch per_page page params fuel

/-- `GetResponse.get_tags(per_page, page, params)`. -/
def get_tags {α : Type} (fetch : QParams → List α) (per_page page : Option Int)
    (params : QParams) (fuel : Nat) :
    List QParams × Except PyExc (Option (List α)) :=
  paginateCall fetch per_page page params fuel

/-! ## Contact Search Aggregator (`get_all_contacts` / `search_contacts`) -/

/-- One entry of the `conditions` list of a search request body (the
name/email conditions carry no `scope`; the `assigned`/`not_assigned`
custom-field conditions carry no `value`). -/
structure Condition where
  conditionType : String
  operatorType : String
  operator : String
  scope : Option String
  value : Option String
deriving DecidableEq

/-- One entry of the `section` list of a search request body. -/
structure SearchSection where
  campaignIdsList : List JVal
  logicOperator : String
  subscriberCycle : List String
  subscriptionDate : String
  conditions : List Condition

/-- The request body `search_contacts` posts to `/search-contacts/contacts`. -/
structure SearchBody where
  subscribersType : List String
  sectionLogicOperator : String
  sectionList : List SearchSection

/-- `GetResponse.search_contacts(body, per_page=100, page=None, params=None)`
against a fetch oracle for the search endpoint (the Python default for
`per_page` is 100; callers of this model pass the argument explicitly). -/
def search_contacts {α : Type} (fetch : SearchBody → QParams → List α) (body : SearchBody)
    (per_page page : Option Int) (params : QParams) (fuel : Nat) :
    List QParams × Except PyExc (Option (List α)) :=
  paginateCall (fetch body) per_page page params fuel

/-- A name/email filter argument of `get_all_contacts`: either a bare
string or an `(operator, value)` tuple. -/
inductive SearchFilter where
  | bare (value : String)
  | pair (op : String) (value : String)

/-- Python truthiness of an optional filter argument: absent, an empty
string, and nothing else, is falsy (a 2-tuple is always truthy). -/
def filterTruthy : Option SearchFilter → Bool
  | none => false
  | some (.bare s) => !s.isEmpty
  | some (.pair _ _) => true

/-- `_allowed_operators` of `get_all_contacts`. -/
def allowedOperators : List String :=
  ["is", "is_not", "contains", "not_contains", "starts", "ends", "not_starts", "not_ends"]

/-- `custom_field_operators` of `get_all_contacts`. -/
def customFieldOperators : List String :=
  allowedOperators ++ ["assigned", "not_assigned"]

/-- Builds the name or email condition: a bare string means operator
`'is'`; the operator must be allowed (assertion otherwise). -/
def filterCondition (condType : String) (f : SearchFilter) : Except PyExc Condition :=
  let opv : String × String :=
    match f with
    | .bare s => ("is", s)
    | .pair op v => (op, v)
  if allowedOperators.contains opv.1 then
    .ok { conditionType := condType, operatorType := "string_operator",
          operator := opv.1, scope := none, value := some opv.2 }
  else .error (.assertionError "operator must be in _allowed_operators")

/-- Builds one custom-field condition from a `(custom_field_id, operator,
value)` triple; `assigned`/`not_assigned` omit the value. -/
def customFieldCondition (t : String × String × String) : Except PyExc Condition :=
  if customFieldOperators.contains t.2.1 then
    .ok { conditionType := "custom", operatorType := "string_operator_list",
          operator := t.2.1, scope := some t.1,
          value := if t.2.1 = "assigned" ∨ t.2.1 = "not_assigned" then none else some t.2.2 }
  else .error (.assertionError "operator must be in custom_field_operators")

/-- Maps `customFieldCondition` over the custom-field filter triples. -/
def customFieldConditions : List (String × String × String) → Except PyExc (List Condition)
  | [] => .ok []
  | t :: rest =>
    match customFieldCondition t with
    | .error e => .error e
    | .ok c =>
      match customFieldConditions rest with
      | .error e => .error e
      | .ok cs => .ok (c :: cs)

/-- The ADD SEARCH CONDITIONS block of `get_all_contacts`: name condition,
then email condition, then the custom-field conditions, each guarded by
Python truthiness of the corresponding argument. -/
def buildConditions (name email : Option SearchFilter)
    (custom_fields : Option (List (String × String × String))) :
    Except PyExc (List Condition) :=
  let afterName : Except PyExc (List Condition) :=
    if filterTruthy name then
      match filterCondition "name" (name.getD (.bare "")) with
      | .error e => .error e
      | .ok c => .ok [c]
    else .ok []
  match afterName with
  | .error e => .error e
  | .ok cs1 =>
    let afterEmail : Except PyExc (List Condition) :=
      if filterTruthy email then
        match filterCondition "email" (email.getD (.bare "")) with
        | .error e => .error e
        | .ok c => .ok (cs1 ++ [c])
      else .ok cs1
    match afterEmail with
    | .error e => .error e
    | .ok cs2 =>
      match custom_fields with
      | none => .ok cs2
      | some l =>
        if l.isEmpty then .ok cs2
        else
          match customFieldConditions l with
          | .error e => .error e
          | .ok cs3 => .ok (cs2 ++ cs3)

/-- The composite search request body built per subscriber type in
`get_all_contacts`. -/
def searchBodyFor (t : String) (cids : List JVal) (conds : List Condition) : SearchBody :=
  { subscribersType := [t]
    sectionLogicOperator := "or"
    sectionList := [{ campaignIdsList := cids
                      logicOperator := "and"
                      subscriberCycle := ["receiving_autoresponder", "not_receiving_autoresponder"]
                      subscriptionDate := "all_time"
                      conditions := conds }] }

/-- One network request issued by `get_all_contacts`: either a page of
the campaign listing (`get_campaigns`) or a page of a contact search
(`search_contacts`). -/
inductive NetRequest where
  | campaignsReq (payload : QParams)
  | searchReq (body : SearchBody) (payload : QParams)

/-- The SEARCH FOR THE CONTACTS FOR ANY GIVEN SUBSCRIBER_TYPE loop of
`get_all_contacts`: one `search_contacts` delegation per subscriber
type, results concatenated in order. -/
def searchLoop {α : Type} (fetchSearch : SearchBody → QParams → List α)
    (cids : List JVal) (conds : List Condition) (per_page page : Option Int)
    (params : QParams) (fuel : Nat) :
    List String → List NetRequest × Except PyExc (Option (List α))
  | [] => ([], .ok (some []))
  | t :: rest =>
    let body := searchBodyFor t cids conds
    let r := search_contacts fetchSearch body per_page page params fuel
    let tr := r.1.map (NetRequest.searchReq body)
    match r.2 with
    | .error e => (tr, .error e)
    | .ok none => (tr, .ok none)
    | .ok (some items) =>
      let rest2 := searchLoop fetchSearch cids conds per_page page params fuel rest
      (tr ++ rest2.1, rest2.2.map (fun o => o.map (fun tl => items ++ tl)))

/-- `GetResponse.get_all_contacts`.  When `campaign_ids` is falsy (absent
or empty) the ids of every campaign are fetched first via
`get_campaigns({})`; then the search conditions are built (with their
operator assertions); then one paginated `search_contacts` runs per
subscriber type.  The first component is the full trace of network
requests issued, kept also when the call raises. -/
def get_all_contacts {α : Type} (fetchCampaigns : QParams → List Campaign)
    (fetchSearch : SearchBody → QParams → List α)
    (campaign_ids : Option (List JVal)) (name email : Option SearchFilter)
    (custom_fields : Option (List (String × String × String)))
    (subscriber_types : Option (List String))
    (per_page page : Option Int) (params : QParams) (fuel : Nat) :
    List NetRequest × Except PyExc (Option (List α)) :=
  let subTypes : List String :=
    match subscriber_types with
    | some l => if l.isEmpty then SUBSCRIBER_TYPES else l
    | none => SUBSCRIBER_TYPES
  let cidStep : List NetRequest × Except PyExc (Option (List JVal)) :=
    match campaign_ids with
    | some l =>
      if l.isEmpty then
        let r := get_campaigns fetchCampaigns none none [] fuel
        (r.1.map .campaignsReq, r.2.map (fun o => o.map (fun cs => cs.map (fun c => c.id))))
      else ([], .ok (some l))
    | none =>
      let r := get_campaigns fetchCampaigns none none [] fuel
      (r.1.map .campaignsReq, r.2.map (fun o => o.map (fun cs => cs.map (fun c => c.id))))
  match cidStep with
  | (tr, .error e) => (tr, .error e)
  | (tr, .ok none) => (tr, .ok none)
  | (tr, .ok (some cids)) =>
    match buildConditions name email custom_fields with
    | .error e => (tr, .error e)
    | .ok conds =>
      let r := searchLoop fetchSearch cids conds per_page page params fuel subTypes
      (tr ++ r.1, r.2)

/-! ## Request Dispatcher (`GetResponse._request` / `_create_obj`) -/

/-- `ObjType` of enums.py (the enums module is not under src/; its five
members are evident from every `_request` call site in client.py). -/
inductive ObjType where
  | account
  | campaign
  | contact
  | custom_field
  | tag

/-- A parsed HTTP response: status code plus `response.json()`. -/
structure HttpResponse where
  status : Nat
  body : JVal

/-- The inclusive success set `(200, 201, 202, 203, 204, 205, 206, 207,
208, 226)` checked by `_request`. -/
def successStatuses : List Nat :=
  [200, 201, 202, 203, 204, 205, 206, 207, 208, 226]

mutual

/-- Python `str()` of a JSON value, used to append the full error payload
to the error message.  Cosmetic details of the CPython repr (unicode
prefixes, spacing) are approximated; no claim depends on them. -/
def pyStr : JVal → String
  | .null => "None"
  | .bool true => "True"
  | .bool false => "False"
  | .num n => toString n
  | .str s => "\x27" ++ s ++ "\x27"
  | .arr xs => "[" ++ pyStrItems xs ++ "]"
  | .obj kvs => "\x7b" ++ pyStrFields kvs ++ "\x7d"

/-- Comma-separated reprs of the items of a Python list. -/
def pyStrItems : List JVal → String
  | [] => ""
  | [x] => pyStr x
  | x :: y :: xs => pyStr x ++ ", " ++ pyStrItems (y :: xs)

/-- Comma-separated reprs of the entries of a Python dict. -/
def pyStrFields : List (String × JVal) → String
  | [] => ""
  | [(k, v)] => "\x27" ++ k ++ "\x27: " ++ pyStr v
  | (k, v) :: y :: xs => "\x27" ++ k ++ "\x27: " ++ pyStr v ++ ", " ++ pyStrFields (y :: xs)

end

/-- Python `v == n` against an integer literal (an error `code` field). -/
def jEqNum (v : JVal) (n : Int) : Bool :=
  match v with
  | .num m => m == n
  | _ => false

/-- The error branch shared by the GET and POST arms of `_request`:
reads `error['message']` (KeyError when absent, TypeError when the
concatenation target is not a string), builds
`error_msg = error['message'] + "\n" + str(error)`, then selects the
typed error by `error['code']`, falling back to a bare Exception. -/
def raiseApiError (error : JVal) : PyExc :=
  match jsonGet error "message" with
  | none => .keyError "message"
  | some mv =>
    match mv with
    | .str m =>
      let msg := m ++ "\n" ++ pyStr error
      match jsonGet error "code" with
      | none => .keyError "code"
      | some c =>
        if jEqNum c 1000 then .validationError msg error
        else if jEqNum c 1001 then .relatedRecordNotFoundError msg error
        else if jEqNum c 1013 then .notFoundError msg error
        else if jEqNum c 1002 then .forbiddenError msg error
        else if jEqNum c 1008 then .uniquePropertyError msg error
        else .exception msg
    | _ => .typeError

/-- The value `_request` returns: the pending-success sentinel `True`
(status 202, and DELETE status 204), `None` (DELETE non-204), or a
mapped object from `_create_obj`. -/
inductive MappedObj where
  | accounts (r : OneOrMany Account)
  | campaigns (r : OneOrMany Campaign)
  | contacts (r : OneOrMany Contact)
  | customFields (r : OneOrMany CustomField)
  | tagObjs (r : OneOrMany Tag)
  | raw (v : JVal)

/-- Dispatcher results. -/
inductive PyResult where
  | pyTrue
  | pyNone
  | mappedRes (m : MappedObj)

/-- `GetResponse._create_obj`: routes the parsed payload to the matching
manager; the Contact manager additionally receives the request body and
query payload; with no obj type the raw data comes back unchanged. -/
def createObj (obj_type : Option ObjType) (data : JVal)
    (request_body request_payload : Option JVal) : Except PyExc MappedObj :=
  match obj_type with
  | some .account =>
    match accountManagerCreate data with
    | .error e => .error e
    | .ok r => .ok (.accounts r)
  | some .campaign =>
    match campaignManagerCreate data with
    | .error e => .error e
    | .ok r => .ok (.campaigns r)
  | some .contact =>
    match contactManagerCreate data request_body request_payload with
    | .error e => .error e
    | .ok r => .ok (.contacts r)
  | some .custom_field =>
    match customFieldManagerCreate data with
    | .error e => .error e
    | .ok r => .ok (.customFields r)
  | some .tag =>
    match tagManagerCreate data with
    | .error e => .error e
    | .ok r => .ok (.tagObjs r)
  | none => .ok (.raw data)

/-- The GET arm of `_request`: non-success statuses raise the typed
error; 202 returns the pending sentinel `True`; otherwise the JSON body
is routed to `_create_obj` (GET calls carry no request body). -/
def requestGet (obj_type : Option ObjType) (resp : HttpResponse)
    (payload : Option JVal) : Except PyExc PyResult :=
  if successStatuses.contains resp.status then
    if resp.status = 202 then .ok .pyTrue
    else
      match createObj obj_type resp.body none payload with
      | .error e => .error e
      | .ok m => .ok (.mappedRes m)
  else .error (raiseApiError resp.body)

/-- The POST arm of `_request`: identical to the GET arm except that the
posted body is forwarded to `_create_obj` as request context. -/
def requestPost (obj_type : Option ObjType) (resp : HttpResponse)
    (body payload : Option JVal) : Except PyExc PyResult :=
  if successStatuses.contains resp.status then
    if resp.status = 202 then .ok .pyTrue
    else
      match createObj obj_type resp.body body payload with
      | .error e => .error e
      | .ok m => .ok (.mappedRes m)
  else .error (raiseApiError resp.body)

/-- The DELETE arm of `_request`: status 204 returns `True`, every other
status returns `None`; no error is ever raised and no object mapped. -/
def requestDelete (resp : HttpResponse) : Except PyExc PyResult :=
  if resp.status = 204 then .ok .pyTrue else .ok .pyNone

/-! ## Helper lemmas -/

/-- Re-assigning the same key overwrites the previous assignment. -/
lemma dictSet_dictSet {α : Type} (l : List (String × α)) (k : String) (v w : α) :
    dictSet (dictSet l k v) k w = dictSet l k w := by
  induction l with
  | nil => simp [dictSet]
  | cons hd tl ih =>
    obtain ⟨k2, v2⟩ := hd
    by_cases hk : k2 = k
    · subst hk; simp [dictSet]
    · simp [dictSet, hk, ih]

/-- Every entity produced by the list branch of a manager `create` comes
from `_create` on one of the items. -/
lemma createEach_forall {α : Type} (f : KwArgs → Except PyExc α) (P : α → Prop)
    (hf : ∀ kw a, f kw = .ok a → P a) :
    ∀ (l : List JVal) (xs : List α), createEach f l = .ok xs → ∀ x ∈ xs, P x := by
  intro l
  induction l with
  | nil => intro xs h x hx; simp [createEach] at h; subst h; simp at hx
  | cons it rest ih =>
    intro xs h x hx
    cases it with
    | obj kw =>
      cases ha : f kw with
      | error e => simp [createEach, ha] at h
      | ok a =>
        cases hxs2 : createEach f rest with
        | error e => simp [createEach, ha, hxs2] at h
        | ok xs2 =>
          simp [createEach, ha, hxs2] at h
          subst h
          rcases List.mem_cons.mp hx with h1 | h2
          · rw [h1]; exact hf kw a ha
          · exact ih xs2 hxs2 x h2
    | null => simp [createEach] at h
    | bool b => simp [createEach] at h
    | str s => simp [createEach] at h
    | num n => simp [createEach] at h
    | arr ys => simp [createEach] at h

/-- The `subscribers_type` stored on a created Contact is exactly the
value computed from the request-body context. -/
lemma contactCreate1_subscribers_type (rb rp : Option JVal) (kw : KwArgs) (c : Contact)
    (h : contactCreate1 rb rp kw = .ok c) :
    subscribersTypeOf rb = .ok c.subscribers_type := by
  unfold contactCreate1 at h
  cases h1 : lookupKey kw "contactId" with
  | none => rw [h1] at h; simp at h
  | some idv =>
    rw [h1] at h
    cases h2 : subscribersTypeOf rb with
    | error e => rw [h2] at h; simp at h
    | ok st =>
      rw [h2] at h
      by_cases h3 : isSubscriberType st = true
      · simp only [h3, if_true] at h
        cases h4 : parseDateField kw "createdOn" with
        | error e => rw [h4] at h; simp at h
        | ok created =>
          rw [h4] at h
          cases h5 : parseDateField kw "changedOn" with
          | error e => rw [h5] at h; simp at h
          | ok changed =>
            rw [h5] at h
            cases h6 : contactCampaignOf kw with
            | error e => rw [h6] at h; simp at h
            | ok cmp =>
              rw [h6] at h
              simp only [Except.ok.injEq] at h
              subst h
              simpa using h2
      · simp only [h3, if_false] at h
        simp at h

/-- When a lookup in `kwargs` succeeds the mapping is nonempty, so
`raw_data` retains it verbatim. -/
lemma mkRawData_of_lookup {kw : KwArgs} {k : String} {v : JVal}
    (h : lookupKey kw k = some v) :
    mkRawData kw = { args := none, kwargs := some kw } := by
  cases kw with
  | nil => simp [lookupKey] at h
  | cons hd tl => simp [mkRawData]

/-- Projections of a successfully created Tag. -/
lemma tagCreate1_ok (kw : KwArgs) (t : Tag) (h : tagCreate1 kw = .ok t) :
    t.raw_data = mkRawData kw ∧ t.href = mapOpt kw "href" ∧
      t.name = mapOpt kw "name" ∧ t.color = mapOpt kw "color" := by
  unfold tagCreate1 at h
  cases h1 : lookupKey kw "tagId" with
  | none => rw [h1] at h; simp at h
  | some idv =>
    rw [h1] at h
    simp only [Except.ok.injEq] at h
    subst h
    simp

/-- Projections of a successfully created Account. -/
lemma accountCreate1_ok (kw : KwArgs) (a : Account) (h : accountCreate1 kw = .ok a) :
    a.raw_data = mkRawData kw ∧ a.first_name = mapOpt kw "firstName" ∧
      a.last_name = mapOpt kw "lastName" ∧ a.email = mapOpt kw "email" ∧
      a.phone = mapOpt kw "phone" ∧ a.company_name = mapOpt kw "companyName" ∧
      a.state = mapOpt kw "state" ∧ a.city = mapOpt kw "city" ∧
      a.zip_code = mapOpt kw "zipCode" ∧ a.country_code = mapOpt kw "countryCode" ∧
      a.industry_tag = mapOpt kw "industryTag" ∧
      a.number_of_employees = mapOpt kw "numberOfEmployees" ∧
      a.time_format = mapOpt kw "timeFormat" ∧ a.href = mapOpt kw "href" := by
  unfold accountCreate1 at h
  cases h1 : lookupKey kw "accountId" with
  | none => rw [h1] at h; simp at h
  | some idv =>
    rw [h1] at h
    simp only [Except.ok.injEq] at h
    subst h
    simp

/-- Projections of a successfully created CustomField. -/
lemma customFieldCreate1_ok (kw : KwArgs) (f : CustomField)
    (h : customFieldCreate1 kw = .ok f) :
    f.raw_data = mkRawData kw ∧ f.href = mapOpt kw "href" ∧
      f.name = mapOpt kw "name" ∧ f.type = mapOpt kw "type" ∧
      f.value_type = mapOpt kw "valueType" ∧ f.format = mapOpt kw "format" ∧
      f.field_type = mapOpt kw "fieldType" ∧ f.hidden = mapOpt kw "hidden" ∧
      f.values = mapOpt kw "values" := by
  unfold customFieldCreate1 at h
  cases h1 : lookupKey kw "customFieldId" with
  | none => rw [h1] at h; simp at h
  | some idv =>
    rw [h1] at h
    simp only [Except.ok.injEq] at h
    subst h
    simp

/-- Projections of a successfully created Campaign. -/
lemma campaignCreate1_ok (kw : KwArgs) (c : Campaign) (h : campaignCreate1 kw = .ok c) :
    c.raw_data = mkRawData kw ∧ c.href = mapOpt kw "href" ∧
      c.name = mapOpt kw "name" ∧ c.language_code = mapOpt kw "languageCode" ∧
      c.is_default = mapOpt kw "isDefault" ∧ c.description = mapOpt kw "description" ∧
      c.confirmation = mapOpt kw "confirmation" ∧ c.profile = mapOpt kw "profile" ∧
      c.postal = mapOpt kw "postal" ∧ c.opting_types = mapOpt kw "optinTypes" ∧
      c.subscription_notifications = mapOpt kw "subscriptionNotifications" := by
  unfold campaignCreate1 at h
  cases h1 : lookupKey kw "campaignId" with
  | none => rw [h1] at h; simp at h
  | some idv =>
    rw [h1] at h
    cases h2 : parseDateField kw "createdOn" with
    | error e => rw [h2] at h; simp at h
    | ok created =>
      rw [h2] at h
      simp only [Except.ok.injEq] at h
      subst h
      simp

/-- Projections of a successfully created Contact. -/
lemma contactCreate1_ok (rb rp : Option JVal) (kw : KwArgs) (c : Contact)
    (h : contactCreate1 rb rp kw = .ok c) :
    c.raw_data = mkRawData kw ∧ c.href = mapOpt kw "href" ∧
      c.name = mapOpt kw "name" ∧ c.email = mapOpt kw "email" ∧
      c.note = mapOpt kw "note" ∧ c.day_of_cycle = mapOpt kw "dayOfCycle" ∧
      c.origin = mapOpt kw "origin" ∧ c.timezone = mapOpt kw "timeZone" ∧
      c.ip_address = mapOpt kw "ipAddress" ∧ c.activities = mapOpt kw "activities" ∧
      c.scoring = mapOpt kw "scoring" ∧
      c.custom_field_values = mapOpt kw "customFieldValues" ∧
      c.tags = mapOpt kw "tags" ∧ c.engagement_score = mapOpt kw "engagementScore" := by
  unfold contactCreate1 at h
  cases h1 : lookupKey kw "contactId" with
  | none => rw [h1] at h; simp at h
  | some idv =>
    rw [h1] at h
    cases h2 : subscribersTypeOf rb with
    | error e => rw [h2] at h; simp at h
    | ok st =>
      rw [h2] at h
      by_cases h3 : isSubscriberType st = true
      · simp only [h3, if_true] at h
        cases h4 : parseDateField kw "createdOn" with
        | error e => rw [h4] at h; simp at h
        | ok created =>
          rw [h4] at h
          cases h5 : parseDateField kw "changedOn" with
          | error e => rw [h5] at h; simp at h
          | ok changed =>
            rw [h5] at h
            cases h6 : contactCampaignOf kw with
            | error e => rw [h6] at h; simp at h
            | ok cmp =>
              rw [h6] at h
              simp only [Except.ok.injEq] at h
              subst h
              simp
      · simp only [h3, if_false] at h
        simp at h

/-! ## Claims -/

/-- C10: For every DELETE dispatch, the dispatcher returns the success
sentinel True if and only if the response status is exactly 204, and
returns None for every other status code (including other success
statuses such as 200 and all error statuses), never raising a typed
error and never constructing a mapped entity from a DELETE response. -/
theorem claim_C10_delete_sentinel :
    ∀ resp : HttpResponse,
      (requestDelete resp = .ok .pyTrue ↔ resp.status = 204) ∧
      (resp.status ≠ 204 → requestDelete resp = .ok .pyNone) ∧
      (∀ e, requestDelete resp ≠ .error e) ∧
      (∀ m, requestDelete resp ≠ .ok (.mappedRes m)) := by
  intro resp
  unfold requestDelete
  by_cases h : resp.status = 204 <;> simp [h]

/-- Witness for C10 at statuses 204 and 200. -/
theorem claim_C10_witness :
    requestDelete { status := 204, body := .null } = .ok .pyTrue ∧
    requestDelete { status := 200, body := .null } = .ok .pyNone :=
  ⟨(claim_C10_delete_sentinel { status := 204, body := .null }).1.mpr rfl,
   (claim_C10_delete_sentinel { status := 200, body := .null }).2.1 (by decide)⟩

/-- Projection used to observe the name attribute of a single created Tag. -/
def tagNameOf : Except PyExc (OneOrMany Tag) → Option (Option JVal)
  | .ok (.one t) => some t.name
  | _ => none

/-- C6 counterexample: mapping a Tag payload whose optional `name` key is
present with value null yields the attribute `False`, while omitting the
key yields the attribute `None` — the two sentinels differ, refuting the
claim that both cases produce an identical attribute. -/
theorem claim_C6_counterexample :
    tagNameOf (tagManagerCreate (.obj [("tagId", .str "1"), ("name", .null)])) =
      some (some (.bool false)) ∧
    tagNameOf (tagManagerCreate (.obj [("tagId", .str "1")])) = some none ∧
    (some (JVal.bool false) : Option JVal) ≠ none :=
  ⟨rfl, rfl, by simp⟩

/-- C6 (amended): for every entity mapper and optional recognized key
mapped through `none_to_false`, a key present with value null yields the
normalized `False` sentinel while an absent key leaves the attribute at
the distinct unset sentinel `None`. -/
theorem claim_C6_null_vs_absent :
    (∀ (kw : KwArgs) (k : String),
        lookupKey kw k = some JVal.null → mapOpt kw k = some (.bool false)) ∧
    (∀ (kw : KwArgs) (k : String), lookupKey kw k = none → mapOpt kw k = none) ∧
    (∀ kw t, tagCreate1 kw = .ok t →
        t.name = mapOpt kw "name" ∧ t.href = mapOpt kw "href" ∧
        t.color = mapOpt kw "color") ∧
    (∀ kw a, accountCreate1 kw = .ok a →
        a.href = mapOpt kw "href" ∧ a.email = mapOpt kw "email" ∧
        a.first_name = mapOpt kw "firstName" ∧ a.phone = mapOpt kw "phone") ∧
    (∀ kw c, campaignCreate1 kw = .ok c →
        c.href = mapOpt kw "href" ∧ c.name = mapOpt kw "name" ∧
        c.description = mapOpt kw "description") ∧
    (∀ kw f, customFieldCreate1 kw = .ok f →
        f.href = mapOpt kw "href" ∧ f.name = mapOpt kw "name" ∧
        f.hidden = mapOpt kw "hidden") ∧
    (∀ rb rp kw c, contactCreate1 rb rp kw = .ok c →
        c.href = mapOpt kw "href" ∧ c.email = mapOpt kw "email" ∧
        c.note = mapOpt kw "note") ∧
    (some (JVal.bool false) : Option JVal) ≠ none := by
  refine ⟨?_, ?_, ?_, ?_, ?_, ?_, ?_, by simp⟩
  · intro kw k h; simp [mapOpt, h, noneToFalse]
  · intro kw k h; simp [mapOpt, h]
  · intro kw t h
    obtain ⟨_, h2, h3, h4⟩ := tagCreate1_ok kw t h
    exact ⟨h3, h2, h4⟩
  · intro kw a h
    obtain ⟨_, h2, h3, h4, h5, h6, h7, h8, h9, h10, h11, h12, h13, h14⟩ :=
      accountCreate1_ok kw a h
    exact ⟨h14, h4, h2, h5⟩
  · intro kw c h
    obtain ⟨_, h2, h3, h4, h5, h6, h7, h8, h9, h10, h11⟩ := campaignCreate1_ok kw c h
    exact ⟨h2, h3, h6⟩
  · intro kw f h
    obtain ⟨_, h2, h3, h4, h5, h6, h7, h8, h9⟩ := customFieldCreate1_ok kw f h
    exact ⟨h2, h3, h8⟩
  · intro rb rp kw c h
    obtain ⟨_, h2, h3, h4, h5, h6, h7, h8, h9, h10, h11, h12, h13, h14⟩ :=
      contactCreate1_ok rb rp kw c h
    exact ⟨h2, h4, h5⟩

/-- Witness for C6 (amended) at concrete payloads. -/
theorem claim_C6_witness :
    mapOpt [("name", JVal.null)] "name" = some (.bool false) ∧
    mapOpt [] "name" = none ∧
    (∃ t, tagCreate1 [("tagId", JVal.str "1"), ("name", JVal.null)] = .ok t ∧
      t.name = some (.bool false)) := by
  refine ⟨claim_C6_null_vs_absent.1 [("name", JVal.null)] "name" rfl,
          claim_C6_null_vs_absent.2.1 [] "name" rfl, ⟨_, rfl, ?_⟩⟩
  have h := (claim_C6_null_vs_absent.2.2.1 [("tagId", JVal.str "1"), ("name", JVal.null)]
      _ rfl).1
  rw [h]
  rfl

/-- C7: for every entity mapper and every raw payload containing the
required id key, constructing the entity succeeds only with the original
mapping retained verbatim in its raw payload (`raw_data['kwargs']`). -/
theorem claim_C7_raw_roundtrip :
    (∀ kw a, accountCreate1 kw = .ok a →
        a.raw_data = { args := none, kwargs := some kw }) ∧
    (∀ kw c, campaignCreate1 kw = .ok c →
        c.raw_data = { args := none, kwargs := some kw }) ∧
    (∀ rb rp kw c, contactCreate1 rb rp kw = .ok c →
        c.raw_data = { args := none, kwargs := some kw }) ∧
    (∀ kw f, customFieldCreate1 kw = .ok f →
        f.raw_data = { args := none, kwargs := some kw }) ∧
    (∀ kw t, tagCreate1 kw = .ok t →
        t.raw_data = { args := none, kwargs := some kw }) := by
  refine ⟨?_, ?_, ?_, ?_, ?_⟩
  · intro kw a h
    have hr := (accountCreate1_ok kw a h).1
    unfold accountCreate1 at h
    cases h1 : lookupKey kw "accountId" with
    | none => rw [h1] at h; simp at h
    | some idv => rw [hr, mkRawData_of_lookup h1]
  · intro kw c h
    have hr := (campaignCreate1_ok kw c h).1
    unfold campaignCreate1 at h
    cases h1 : lookupKey kw "campaignId" with
    | none => rw [h1] at h; simp at h
    | some idv => rw [hr, mkRawData_of_lookup h1]
  · intro rb rp kw c h
    have hr := (contactCreate1_ok rb rp kw c h).1
    unfold contactCreate1 at h
    cases h1 : lookupKey kw "contactId" with
    | none => rw [h1] at h; simp at h
    | some idv => rw [hr, mkRawData_of_lookup h1]
  · intro kw f h
    have hr := (customFieldCreate1_ok kw f h).1
    unfold customFieldCreate1 at h
    cases h1 : lookupKey kw "customFieldId" with
    | none => rw [h1] at h; simp at h
    | some idv => rw [hr, mkRawData_of_lookup h1]
  · intro kw t h
    have hr := (tagCreate1_ok kw t h).1
    unfold tagCreate1 at h
    cases h1 : lookupKey kw "tagId" with
    | none => rw [h1] at h; simp at h
    | some idv => rw [hr, mkRawData_of_lookup h1]

/-- Witness for C7 at concrete payloads for all five mappers. -/
theorem claim_C7_witness :
    (∃ a, accountCreate1 [("accountId", JVal.str "a"), ("extra", JVal.num 7)] = .ok a ∧
      a.raw_data = { args := none,
                     kwargs := some [("accountId", JVal.str "a"), ("extra", JVal.num 7)] }) ∧
    (∃ c, campaignCreate1 [("campaignId", JVal.str "c")] = .ok c ∧
      c.raw_data = { args := none, kwargs := some [("campaignId", JVal.str "c")] }) ∧
    (∃ c, contactCreate1 none none [("contactId", JVal.str "x")] = .ok c ∧
      c.raw_data = { args := none, kwargs := some [("contactId", JVal.str "x")] }) ∧
    (∃ f, customFieldCreate1 [("customFieldId", JVal.str "f")] = .ok f ∧
      f.raw_data = { args := none, kwargs := some [("customFieldId", JVal.str "f")] }) ∧
    (∃ t, tagCreate1 [("tagId", JVal.str "t")] = .ok t ∧
      t.raw_data = { args := none, kwargs := some [("tagId", JVal.str "t")] }) :=
  ⟨⟨_, rfl, claim_C7_raw_roundtrip.1 _ _ rfl⟩,
   ⟨_, rfl, claim_C7_raw_roundtrip.2.1 _ _ rfl⟩,
   ⟨_, rfl, claim_C7_raw_roundtrip.2.2.1 none none _ _ rfl⟩,
   ⟨_, rfl, claim_C7_raw_roundtrip.2.2.2.1 _ _ rfl⟩,
   ⟨_, rfl, claim_C7_raw_roundtrip.2.2.2.2 _ _ rfl⟩⟩

/-- Projection used to observe the subscriber type of a single created
Contact. -/
def contactStOf : Except PyExc (OneOrMany Contact) → Option JVal
  | .ok (.one c) => some c.subscribers_type
  | _ => none

/-- C5 counterexample: the Contact mapper given a single raw payload and
a request body whose `subscribersType` list is `['undelivered']` still
produces `subscriber_type = 'subscribed'`, because the single-payload
branch of `create` does not forward the request body to `_create`;
the claim requires `'undelivered'` here. -/
theorem claim_C5_counterexample :
    contactStOf (contactManagerCreate (.obj [("contactId", JVal.str "x")])
        (some (.obj [("subscribersType", .arr [.str "undelivered"])])) none) =
      some (.str "subscribed") ∧
    JVal.str "subscribed" ≠ JVal.str "undelivered" :=
  ⟨rfl, by simp⟩

/-- C5 (amended): when the Contact mapper is given a list of payloads,
each contact's subscriber_type equals the first element of the request
body's non-empty `subscribersType` list (defaulting to `'subscribed'`
when no request body is given); when given a single raw payload, the
request context is not forwarded and subscriber_type is always
`'subscribed'`. -/
theorem claim_C5_subscriber_type :
    (∀ (items : List JVal) (s : JVal) (rest2 : List JVal) (others : KwArgs)
        (rp : Option JVal) (cs : List Contact),
        contactManagerCreate (.arr items)
            (some (.obj (("subscribersType", JVal.arr (s :: rest2)) :: others))) rp =
          .ok (.many cs) →
        ∀ c ∈ cs, c.subscribers_type = s) ∧
    (∀ (items : List JVal) (rp : Option JVal) (cs : List Contact),
        contactManagerCreate (.arr items) none rp = .ok (.many cs) →
        ∀ c ∈ cs, c.subscribers_type = .str "subscribed") ∧
    (∀ (kw : KwArgs) (rb rp : Option JVal) (c : Contact),
        contactManagerCreate (.obj kw) rb rp = .ok (.one c) →
        c.subscribers_type = .str "subscribed") := by
  refine ⟨?_, ?_, ?_⟩
  · intro items s rest2 others rp cs h c hc
    have hrb : subscribersTypeOf
        (some (.obj (("subscribersType", JVal.arr (s :: rest2)) :: others))) = .ok s := by
      simp [subscribersTypeOf, JVal.truthy, jsonGet, lookupKey, pyIndex0]
    cases hce : createEach (contactCreate1
        (some (.obj (("subscribersType", JVal.arr (s :: rest2)) :: others))) rp) items with
    | error e => simp [contactManagerCreate, hce] at h
    | ok xs =>
      simp only [contactManagerCreate, hce, Except.ok.injEq, OneOrMany.many.injEq] at h
      subst h
      refine createEach_forall _ (fun c => c.subscribers_type = s) ?_ items _ hce c hc
      intro kw c2 h2
      have hst := contactCreate1_subscribers_type _ rp kw c2 h2
      rw [hrb] at hst
      exact (Except.ok.inj hst).symm
  · intro items rp cs h c hc
    cases hce : createEach (contactCreate1 none rp) items with
    | error e => simp [contactManagerCreate, hce] at h
    | ok xs =>
      simp only [contactManagerCreate, hce, Except.ok.injEq, OneOrMany.many.injEq] at h
      subst h
      refine createEach_forall _ (fun c => c.subscribers_type = .str "subscribed") ?_
        items _ hce c hc
      intro kw c2 h2
      have hst := contactCreate1_subscribers_type none rp kw c2 h2
      simp only [subscribersTypeOf, Except.ok.injEq] at hst
      exact hst.symm
  · intro kw rb rp c h
    cases hc1 : contactCreate1 none none kw with
    | error e => simp [contactManagerCreate, hc1] at h
    | ok c2 =>
      simp only [contactManagerCreate, hc1, Except.ok.injEq, OneOrMany.one.injEq] at h
      subst h
      have hst := contactCreate1_subscribers_type none none kw c2 hc1
      simp only [subscribersTypeOf, Except.ok.injEq] at hst
      exact hst.symm

/-- Witness for C5 (amended) at concrete inputs for all three cases. -/
theorem claim_C5_witness :
    (∃ cs, contactManagerCreate (.arr [.obj [("contactId", JVal.str "x")]])
        (some (.obj [("subscribersType", .arr [.str "undelivered"])])) none =
          .ok (.many cs) ∧ ∀ c ∈ cs, c.subscribers_type = JVal.str "undelivered") ∧
    (∃ cs, contactManagerCreate (.arr [.obj [("contactId", JVal.str "x")]]) none none =
          .ok (.many cs) ∧ ∀ c ∈ cs, c.subscribers_type = JVal.str "subscribed") ∧
    (∃ c, contactManagerCreate (.obj [("contactId", JVal.str "x")])
        (some (.obj [("subscribersType", .arr [.str "undelivered"])])) none =
          .ok (.one c) ∧ c.subscribers_type = JVal.str "subscribed") := by
  refine ⟨⟨_, rfl, ?_⟩, ⟨_, rfl, ?_⟩, ⟨_, rfl, ?_⟩⟩
  · exact claim_C5_subscriber_type.1 [.obj [("contactId", JVal.str "x")]]
      (.str "undelivered") [] [] none _ rfl
  · exact claim_C5_subscriber_type.2.1 [.obj [("contactId", JVal.str "x")]] none _ rfl
  · exact claim_C5_subscriber_type.2.2 [("contactId", JVal.str "x")]
      (some (.obj [("subscribersType", .arr [.str "undelivered"])])) none _ rfl

/-- The concrete 422 error body of the C8 scenario. -/
def errBodyDup : JVal := .obj [("code", .num 1008), ("message", .str "dup")]

/-- C8: for every GET or POST dispatch, a 422 response with body
`{"code":1008,"message":"dup"}` raises the Unique-property-conflict
error whose message contains "dup"; codes 1000, 1001, 1013 and 1002
select their typed errors, any other code raises the generic failure
carrying the message and full error payload; a 202 response returns the
pending-success sentinel and raises nothing. -/
theorem claim_C8_error_mapping :
    (∀ (ot : Option ObjType) (pl : Option JVal),
        requestGet ot { status := 422, body := errBodyDup } pl =
          .error (.uniquePropertyError ("dup" ++ "\n" ++ pyStr errBodyDup) errBodyDup)) ∧
    (∀ (ot : Option ObjType) (b pl : Option JVal),
        requestPost ot { status := 422, body := errBodyDup } b pl =
          .error (.uniquePropertyError ("dup" ++ "\n" ++ pyStr errBodyDup) errBodyDup)) ∧
    (∃ x y, "dup" ++ "\n" ++ pyStr errBodyDup = x ++ "dup" ++ y) ∧
    (∀ (ot : Option ObjType) (status : Nat) (body : JVal) (pl : Option JVal) (m : String),
        successStatuses.contains status = false →
        jsonGet body "message" = some (.str m) →
        jsonGet body "code" = some (.num 1000) →
        requestGet ot { status := status, body := body } pl =
          .error (.validationError (m ++ "\n" ++ pyStr body) body)) ∧
    (∀ (ot : Option ObjType) (status : Nat) (body : JVal) (pl : Option JVal) (m : String),
        successStatuses.contains status = false →
        jsonGet body "message" = some (.str m) →
        jsonGet body "code" = some (.num 1001) →
        requestGet ot { status := status, body := body } pl =
          .error (.relatedRecordNotFoundError (m ++ "\n" ++ pyStr body) body)) ∧
    (∀ (ot : Option ObjType) (status : Nat) (body : JVal) (pl : Option JVal) (m : String),
        successStatuses.contains status = false →
        jsonGet body "message" = some (.str m) →
        jsonGet body "code" = some (.num 1013) →
        requestGet ot { status := status, body := body } pl =
          .error (.notFoundError (m ++ "\n" ++ pyStr body) body)) ∧
    (∀ (ot : Option ObjType) (status : Nat) (body : JVal) (pl : Option JVal) (m : String),
        successStatuses.contains status = false →
        jsonGet body "message" = some (.str m) →
        jsonGet body "code" = some (.num 1002) →
        requestGet ot { status := status, body := body } pl =
          .error (.forbiddenError (m ++ "\n" ++ pyStr body) body)) ∧
    (∀ (ot : Option ObjType) (status : Nat) (body : JVal) (pl : Option JVal) (m : String)
        (code : Int),
        successStatuses.contains status = false →
        jsonGet body "message" = some (.str m) →
        jsonGet body "code" = some (.num code) →
        code ∉ ([1000, 1001, 1013, 1002, 1008] : List Int) →
        requestGet ot { status := status, body := body } pl =
          .error (.exception (m ++ "\n" ++ pyStr body))) ∧
    (∀ (ot : Option ObjType) (body : JVal) (pl : Option JVal),
        requestGet ot { status := 202, body := body } pl = .ok .pyTrue) ∧
    (∀ (ot : Option ObjType) (body : JVal) (b pl : Option JVal),
        requestPost ot { status := 202, body := body } b pl = .ok .pyTrue) := by
  refine ⟨fun ot pl => rfl, fun ot b pl => rfl, ⟨"", "\n" ++ pyStr errBodyDup, rfl⟩,
    ?_, ?_, ?_, ?_, ?_, fun ot body pl => rfl, fun ot body b pl => rfl⟩
  · intro ot status body pl m h1 h2 h3
    have hm : ¬ (successStatuses.contains status = true) := by
      rw [Bool.not_eq_true]; exact h1
    unfold requestGet
    rw [if_neg hm]
    simp [raiseApiError, h2, h3, jEqNum]
  · intro ot status body pl m h1 h2 h3
    have hm : ¬ (successStatuses.contains status = true) := by
      rw [Bool.not_eq_true]; exact h1
    unfold requestGet
    rw [if_neg hm]
    simp [raiseApiError, h2, h3, jEqNum]
  · intro ot status body pl m h1 h2 h3
    have hm : ¬ (successStatuses.contains status = true) := by
      rw [Bool.not_eq_true]; exact h1
    unfold requestGet
    rw [if_neg hm]
    simp [raiseApiError, h2, h3, jEqNum]
  · intro ot status body pl m h1 h2 h3
    have hm : ¬ (successStatuses.contains status = true) := by
      rw [Bool.not_eq_true]; exact h1
    unfold requestGet
    rw [if_neg hm]
    simp [raiseApiError, h2, h3, jEqNum]
  · intro ot status body pl m code h1 h2 h3 h4
    simp only [List.mem_cons, List.not_mem_nil, or_false, not_or] at h4
    obtain ⟨n1, n2, n3, n4, n5⟩ := h4
    have hm : ¬ (successStatuses.contains status = true) := by
      rw [Bool.not_eq_true]; exact h1
    unfold requestGet
    rw [if_neg hm]
    simp [raiseApiError, h2, h3, jEqNum, n1, n2, n3, n4, n5]

/-- Witness for C8 at a concrete non-success status and bodies for each
recognized and one unrecognized code. -/
theorem claim_C8_witness :
    requestGet none ⟨500, .obj [("message", .str "boom"), ("code", .num 1000)]⟩ none =
      .error (.validationError
        ("boom" ++ "\n" ++ pyStr (.obj [("message", .str "boom"), ("code", .num 1000)]))
        (.obj [("message", .str "boom"), ("code", .num 1000)])) ∧
    requestGet none ⟨500, .obj [("message", .str "boom"), ("code", .num 42)]⟩ none =
      .error (.exception
        ("boom" ++ "\n" ++ pyStr (.obj [("message", .str "boom"), ("code", .num 42)]))) := by
  constructor
  · exact claim_C8_error_mapping.2.2.2.1 none 500 _ none "boom" (by decide) rfl rfl
  · exact claim_C8_error_mapping.2.2.2.2.2.2.2.1 none 500 _ none "boom" 42
      (by decide) rfl rfl (by decide)

/-- C3 counterexample: the out-of-range explicit per_page value 0 is
falsy in Python, so the range assertion is skipped entirely and the call
proceeds without error (silently behaving as if per_page had not been
supplied), refuting the claim that any explicit per_page outside 1-1000
is a fatal precondition failure. -/
theorem claim_C3_counterexample :
    paginateCall (fun _ => ([] : List Nat)) (some 0) none [] 1 =
      ([[("page", 1)]], .ok (some [])) ∧
    ¬(0 < (0 : Int) ∧ (0 : Int) ≤ 1000) :=
  ⟨rfl, by decide⟩

/-- C3 (amended): supplying a nonzero per_page both explicitly and as a
`perPage` params key is a fatal assertion failure before any fetch; a
nonzero explicit per_page outside 1-1000 is likewise fatal; an explicit
per_page of 0 is falsy and silently treated as not supplied. -/
theorem claim_C3_per_page_preconditions :
    (∀ (α : Type) (fetch : QParams → List α) (n : Int) (page0 : Option Int)
        (params : QParams) (fuel : Nat),
        n ≠ 0 → containsKey params "perPage" = true →
        ∃ m, resolvePaging (some n) page0 params = .error (.assertionError m) ∧
          paginateCall fetch (some n) page0 params fuel = ([], .error (.assertionError m))) ∧
    (∀ (α : Type) (fetch : QParams → List α) (n : Int) (page0 : Option Int)
        (params : QParams) (fuel : Nat),
        n ≠ 0 → ¬(0 < n ∧ n ≤ 1000) → containsKey params "perPage" = false →
        ∃ m, resolvePaging (some n) page0 params = .error (.assertionError m) ∧
          paginateCall fetch (some n) page0 params fuel = ([], .error (.assertionError m))) ∧
    (∀ (α : Type) (fetch : QParams → List α) (page0 : Option Int) (params : QParams)
        (fuel : Nat),
        paginateCall fetch (some 0) page0 params fuel =
          paginateCall fetch none page0 params fuel) := by
  refine ⟨?_, ?_, ?_⟩
  · intro α fetch n page0 params fuel hn hc
    have ht : optTruthy (some n) = true := by simp [optTruthy, hn]
    have hres : resolvePaging (some n) page0 params =
        .error (.assertionError
          "perPage was found in local_params and in per_page. Use one only.") := by
      simp [resolvePaging, ht, hc]
    exact ⟨_, hres, by simp [paginateCall, hres]⟩
  · intro α fetch n page0 params fuel hn hr hc
    have ht : optTruthy (some n) = true := by simp [optTruthy, hn]
    have hres : resolvePaging (some n) page0 params =
        .error (.assertionError
          "The maximum number per page is 1000 the minimum is 1.") := by
      simp [resolvePaging, ht, hc, hr]
    exact ⟨_, hres, by simp [paginateCall, hres]⟩
  · intro α fetch page0 params fuel
    by_cases hc : containsKey params "perPage" = true
    · simp [paginateCall, resolvePaging, hc, optTruthy]
    · rw [Bool.not_eq_true] at hc
      have h0 : optTruthy (some (0 : Int)) = false := rfl
      have hn : optTruthy (none : Option Int) = false := rfl
      simp only [paginateCall, resolvePaging, hc, h0, hn, Bool.false_eq_true, if_false]
      by_cases hp : optTruthy page0 = true
      · by_cases hcp : containsKey params "page" = true
        · simp [hp, hcp]
        · simp [hp, hcp]
      · by_cases hcp : containsKey params "page" = true
        · simp [hp, hcp]
        · simp [hp, hcp]

/-- Witness for C3 (amended): duplicate per_page 50 with params perPage
60, and out-of-range per_page 1001. -/
theorem claim_C3_witness :
    (∃ m, resolvePaging (some 50) none [("perPage", 60)] = .error (.assertionError m) ∧
      paginateCall (fun _ => ([] : List Nat)) (some 50) none [("perPage", 60)] 1 =
        ([], .error (.assertionError m))) ∧
    (∃ m, resolvePaging (some 1001) none [] = .error (.assertionError m) ∧
      paginateCall (fun _ => ([] : List Nat)) (some 1001) none [] 1 =
        ([], .error (.assertionError m))) :=
  ⟨claim_C3_per_page_preconditions.1 Nat _ 50 none _ 1 (by decide) rfl,
   claim_C3_per_page_preconditions.2.1 Nat _ 1001 none _ 1 (by decide) (by decide) rfl⟩

/-- C2: for every paginated list fetch called with an explicit (nonzero)
page argument, exactly one fetch is issued — that page's items are
returned and the paginator never advances to the next page.  The payload
trace of the call is the single page request. -/
theorem claim_C2_explicit_page :
    ∀ (α : Type) (fetch : QParams → List α) (per_page : Option Int) (p : Int)
      (params lp2 : QParams) (pp2 : Option Int) (fuel : Nat),
      p ≠ 0 → 1 ≤ fuel →
      resolvePaging per_page (some p) params =
        .ok { params := lp2, perPage := pp2, page := some p } →
      paginateCall fetch per_page (some p) params fuel =
        ([dictSet lp2 "page" p], .ok (some (fetch (dictSet lp2 "page" p)))) := by
  intro α fetch per_page p params lp2 pp2 fuel hp hfuel hres
  obtain ⟨f, rfl⟩ : ∃ f, fuel = f + 1 := ⟨fuel - 1, by omega⟩
  have ht : optTruthy (some p) = true := by simp [optTruthy, hp]
  simp only [paginateCall, hres, ht, if_true]
  simp only [paginateLoop, hp, if_false, Option.getD_some]
  simp [ht, hp]

/-- Witness for C2: page 2 against a two-page oracle issues one fetch. -/
theorem claim_C2_witness :
    paginateCall (fun pl => [lookupKey pl "page"]) none (some 2) [] 5 =
      ([[("page", 2)]], .ok (some [some 2])) := by
  have h := claim_C2_explicit_page (Option Int) (fun pl => [lookupKey pl "page"])
    none 2 [] [] none 5 (by decide) (by omega) rfl
  simpa using h

/-- Splitting `List.range` at the head, with the mapped function shifted. -/
lemma range_succ_shift_map {γ : Type} (F : Nat → γ) (N : Nat) :
    (List.range (N + 1 + 1)).map F = F 0 :: (List.range (N + 1)).map (fun k => F (k + 1)) := by
  rw [List.range_succ_eq_map]
  simp [List.map_map, Function.comp]

/-- Exhaustion law of the pagination loop (no explicit page): starting
at page `s`, if the pages `s .. s+N-1` are nonempty and page `s+N` comes
back empty, the loop issues exactly the `N+1` page requests `s .. s+N`
in order and returns the concatenation of their responses in order. -/
lemma paginateLoop_exhaust {α : Type} (fetch : QParams → List α) (lp : QParams) :
    ∀ (N : Nat) (s : Int) (p : QParams) (fuel : Nat),
      1 ≤ s →
      (∀ x : Int, dictSet p "page" x = dictSet lp "page" x) →
      N < fuel →
      (∀ k : Nat, k < N → fetch (dictSet lp "page" (s + k)) ≠ []) →
      fetch (dictSet lp "page" (s + N)) = [] →
      paginateLoop fetch false fuel s p =
        ((List.range (N + 1)).map (fun k : Nat => dictSet lp "page" (s + k)),
         some (((List.range (N + 1)).map
            (fun k : Nat => fetch (dictSet lp "page" (s + k)))).join)) := by
  intro N
  induction N with
  | zero =>
    intro s p fuel hs hp hf h4 h5
    obtain ⟨f, rfl⟩ : ∃ f, fuel = f + 1 := ⟨fuel - 1, by omega⟩
    have hs0 : ¬(s = 0) := by omega
    have h5s : fetch (dictSet lp "page" s) = [] := by simpa using h5
    simp [paginateLoop, hs0, hp s, h5s, List.range_succ]
  | succ N ih =>
    intro s p fuel hs hp hf h4 h5
    obtain ⟨f, rfl⟩ : ∃ f, fuel = f + 1 := ⟨fuel - 1, by omega⟩
    have hs0 : ¬(s = 0) := by omega
    have hne : fetch (dictSet lp "page" s) ≠ [] := by
      have h0 := h4 0 (by omega)
      simpa using h0
    have hitems : (fetch (dictSet lp "page" s)).isEmpty = false := by
      cases hfe : fetch (dictSet lp "page" s) with
      | nil => exact absurd hfe hne
      | cons a l => rfl
    have hp2 : ∀ x : Int, dictSet (dictSet p "page" s) "page" x = dictSet lp "page" x := by
      intro x; rw [dictSet_dictSet]; exact hp x
    have h4b : ∀ k : Nat, k < N → fetch (dictSet lp "page" (s + 1 + k)) ≠ [] := by
      intro k hk
      have hh := h4 (k + 1) (by omega)
      rw [show (s + ((k : Nat) + 1 : Nat) : Int) = s + 1 + (k : Nat) by push_cast; ring] at hh
      exact hh
    have h5b : fetch (dictSet lp "page" (s + 1 + N)) = [] := by
      rw [show (s + 1 + (N : Nat) : Int) = s + ((N : Nat) + 1 : Nat) by push_cast; ring]
      exact h5
    have hrec := ih (s + 1) (dictSet p "page" s) f (by omega) hp2 (by omega) h4b h5b
    rw [hp s] at hrec
    simp only [paginateLoop, hs0, if_false, Bool.false_eq_true, hp s, hitems]
    rw [hrec]
    have hfst : (List.range (N + 1 + 1)).map (fun k : Nat => dictSet lp "page" (s + k)) =
        dictSet lp "page" s ::
          (List.range (N + 1)).map (fun k : Nat => dictSet lp "page" (s + 1 + k)) := by
      rw [range_succ_shift_map (fun k : Nat => dictSet lp "page" (s + k)) N]
      congr 1
      · simp
      · apply List.map_congr_left
        intro k _
        congr 1
        push_cast
        ring
    have hsnd : (List.range (N + 1 + 1)).map
          (fun k : Nat => fetch (dictSet lp "page" (s + k))) =
        fetch (dictSet lp "page" s) ::
          (List.range (N + 1)).map (fun k : Nat => fetch (dictSet lp "page" (s + 1 + k))) := by
      rw [range_succ_shift_map (fun k : Nat => fetch (dictSet lp "page" (s + k))) N]
      congr 1
      · simp
      · apply List.map_congr_left
        intro k _
        congr 2
        push_cast
        ring
    rw [hfst, hsnd]
    simp

/-- Three-full-pages oracle for the concrete C1 scenario: pages 1-3
return 100 items each, page 4 and beyond return nothing.  Items are
(page, index) pairs, so order is observable. -/
def pages100 : QParams → List (Int × Nat) := fun pl =>
  match lookupKey pl "page" with
  | some k => if 1 ≤ k ∧ k ≤ 3 then (List.range 100).map (fun i => (k, i)) else []
  | none => []

/-- The expected C1 aggregation: pages 1, 2, 3 concatenated in order,
items within each page in response order. -/
def pages100Items : List (Int × Nat) :=
  ((List.range 3).map (fun k => (List.range 100).map (fun i => ((k : Int) + 1, i)))).join

set_option maxRecDepth 20000 in
/-- C1: every paginated list fetch called with no explicit page starts
at page 1 and fetches successive pages, incrementing the page counter,
until a fetch returns an empty result, returning the concatenation in
page order (general law on `get_contacts`, which all five paginated
methods share via `paginateCall`); in particular with pages of sizes
[100,100,100,0] and per_page=100 the call returns exactly 300 items
across exactly 4 fetches. -/
theorem claim_C1_pagination_exhaustion :
    (∀ (α : Type) (fetch : QParams → List α) (params : QParams) (per_page : Option Int)
        (r : Resolved) (N fuel : Nat),
        resolvePaging per_page none params = .ok r →
        optTruthy r.page = false →
        N < fuel →
        (∀ k : Nat, k < N → fetch (dictSet r.params "page" (1 + (k : Int))) ≠ []) →
        fetch (dictSet r.params "page" (1 + (N : Int))) = [] →
        get_contacts fetch params per_page none fuel =
          ((List.range (N + 1)).map (fun k : Nat => dictSet r.params "page" (1 + (k : Int))),
           .ok (some (((List.range (N + 1)).map
              (fun k : Nat => fetch (dictSet r.params "page" (1 + (k : Int))))).join)))) ∧
    (∀ (α : Type) (fetch : QParams → List α) (pp pg : Option Int) (params : QParams)
        (fuel : Nat),
        get_campaigns fetch pp pg params fuel = paginateCall fetch pp pg params fuel ∧
        get_custom_fields fetch pp pg params fuel = paginateCall fetch pp pg params fuel ∧
        get_tags fetch pp pg params fuel = paginateCall fetch pp pg params fuel ∧
        get_contacts fetch params pp pg fuel = paginateCall fetch pp pg params fuel) ∧
    (∀ (α : Type) (fetch : SearchBody → QParams → List α) (body : SearchBody)
        (pp pg : Option Int) (params : QParams) (fuel : Nat),
        search_contacts fetch body pp pg params fuel =
          paginateCall (fetch body) pp pg params fuel) ∧
    (get_contacts pages100 [] (some 100) none 4 =
      ([[("perPage", 100), ("page", 1)], [("perPage", 100), ("page", 2)],
        [("perPage", 100), ("page", 3)], [("perPage", 100), ("page", 4)]],
       .ok (some pages100Items))) ∧
    pages100Items.length = 300 := by
  refine ⟨?_, fun α fetch pp pg params fuel => ⟨rfl, rfl, rfl, rfl⟩,
    fun α fetch body pp pg params fuel => rfl, ?_, rfl⟩
  · intro α fetch params per_page r N fuel hres hpg hN h4 h5
    unfold get_contacts paginateCall
    rw [hres]
    simp only [hpg, Bool.false_eq_true, if_false]
    have hl := paginateLoop_exhaust fetch r.params N 1 r.params fuel (by omega)
      (fun x => rfl) hN h4 h5
    rw [hl]
  · rfl

/-- Witness for C1: an immediately-empty oracle ends after one fetch at
page 1. -/
theorem claim_C1_witness :
    get_contacts (fun _ => ([] : List Nat)) [] none none 1 = ([[("page", 1)]], .ok (some [])) := by
  have h := claim_C1_pagination_exhaustion.1 Nat (fun _ => ([] : List Nat)) [] none
    { params := [], perPage := none, page := none } 0 1 rfl rfl (by omega)
    (fun k hk => absurd hk (by omega)) rfl
  exact h.trans rfl

/-- Every request in the subscriber-type search loop's trace is a search
request whose body is the composite body built for one of the given
subscriber types. -/
lemma searchLoop_mem {α : Type} (fetchSearch : SearchBody → QParams → List α)
    (cids : List JVal) (conds : List Condition) (pp pg : Option Int)
    (params : QParams) (fuel : Nat) :
    ∀ (types : List String) (req : NetRequest),
      req ∈ (searchLoop fetchSearch cids conds pp pg params fuel types).1 →
      ∃ t ∈ types, ∃ pl, req = .searchReq (searchBodyFor t cids conds) pl := by
  intro types
  induction types with
  | nil => intro req h; simp [searchLoop] at h
  | cons t rest ih =>
    intro req h
    simp only [searchLoop] at h
    cases hr : (search_contacts fetchSearch (searchBodyFor t cids conds) pp pg params fuel).2 with
    | error e =>
      rw [hr] at h
      simp only [List.mem_map] at h
      obtain ⟨pl, _, hpl⟩ := h
      exact ⟨t, by simp, pl, hpl.symm⟩
    | ok o =>
      cases o with
      | none =>
        rw [hr] at h
        simp only [List.mem_map] at h
        obtain ⟨pl, _, hpl⟩ := h
        exact ⟨t, by simp, pl, hpl.symm⟩
      | some items =>
        rw [hr] at h
        simp only [List.mem_append, List.mem_map] at h
        rcases h with ⟨pl, _, hpl⟩ | h2
        · exact ⟨t, by simp, pl, hpl.symm⟩
        · obtain ⟨t2, ht2, pl, hpl⟩ := ih req h2
          exact ⟨t2, by simp [ht2], pl, hpl⟩

/-- If the shared pagination prelude rejects the arguments, the search
loop raises on its very first subscriber type with an empty trace. -/
lemma searchLoop_resolve_error {α : Type} (fetchSearch : SearchBody → QParams → List α)
    (cids : List JVal) (conds : List Condition) (pp pg : Option Int)
    (params : QParams) (fuel : Nat) (e : PyExc)
    (hre : resolvePaging pp pg params = .error e) :
    ∀ (t : String) (rest : List String),
      searchLoop fetchSearch cids conds pp pg params fuel (t :: rest) = ([], .error e) := by
  intro t rest
  have hs : search_contacts fetchSearch (searchBodyFor t cids conds) pp pg params fuel =
      ([], .error e) := by
    unfold search_contacts paginateCall
    rw [hre]
  simp [searchLoop, hs]

/-- The condition emitted for a bare name filter "Max": implied operator
`is`. -/
def nameIsMaxCondition : Condition :=
  { conditionType := "name", operatorType := "string_operator", operator := "is",
    scope := none, value := some "Max" }

/-- C4: `get_all_contacts(name="Max")` with default subscriber types
delegates one composite search per subscriber type, in the order
subscribed, undelivered, removed, unconfirmed, every emitted search
request carrying the condition list
`[{conditionType: name, operatorType: string_operator, operator: is,
value: Max}]` (the bare string filter implies operator `is`); concretely
with one campaign id and an empty search oracle, exactly 4 search
requests are issued, in that order. -/
theorem claim_C4_search_aggregation :
    (∀ (α : Type) (fetchC : QParams → List Campaign)
        (fetchS : SearchBody → QParams → List α) (cids : List JVal)
        (pp pg : Option Int) (params : QParams) (fuel : Nat) (req : NetRequest),
        cids ≠ [] →
        req ∈ (get_all_contacts fetchC fetchS (some cids) (some (.bare "Max"))
            none none none pp pg params fuel).1 →
        ∃ t ∈ SUBSCRIBER_TYPES, ∃ pl,
          req = .searchReq (searchBodyFor t cids [nameIsMaxCondition]) pl) ∧
    (get_all_contacts (fun _ => []) (fun _ _ => ([] : List Nat)) (some [.str "c1"])
        (some (.bare "Max")) none none none none none [] 1 =
      ([.searchReq (searchBodyFor "subscribed" [.str "c1"] [nameIsMaxCondition]) [("page", 1)],
        .searchReq (searchBodyFor "undelivered" [.str "c1"] [nameIsMaxCondition]) [("page", 1)],
        .searchReq (searchBodyFor "removed" [.str "c1"] [nameIsMaxCondition]) [("page", 1)],
        .searchReq (searchBodyFor "unconfirmed" [.str "c1"] [nameIsMaxCondition]) [("page", 1)]],
       .ok (some []))) := by
  constructor
  · intro α fetchC fetchS cids pp pg params fuel req hcne hmem
    have hie : cids.isEmpty = false := by
      cases cids with
      | nil => exact absurd rfl hcne
      | cons a l => rfl
    have hbc : buildConditions (some (.bare "Max")) none none = .ok [nameIsMaxCondition] := rfl
    simp only [get_all_contacts, hie, Bool.false_eq_true, if_false, hbc,
      List.nil_append] at hmem
    exact searchLoop_mem fetchS cids [nameIsMaxCondition] pp pg params fuel
      SUBSCRIBER_TYPES req hmem
  · rfl

/-- Witness for C4: the first emitted request of the concrete run is a
search request for one of the default subscriber types with the `is Max`
name condition. -/
theorem claim_C4_witness :
    ∃ t ∈ SUBSCRIBER_TYPES, ∃ pl,
      NetRequest.searchReq (searchBodyFor "subscribed" [.str "c1"] [nameIsMaxCondition])
          [("page", 1)] =
        .searchReq (searchBodyFor t [.str "c1"] [nameIsMaxCondition]) pl := by
  refine claim_C4_search_aggregation.1 Nat (fun _ => []) (fun _ _ => []) [.str "c1"]
    none none [] 1 _ (by simp) ?_
  exact List.Mem.head _

/-- A concrete mapped Campaign with id "c1" (as returned by the campaign
fetch oracle in the C9 scenario). -/
def campA : Campaign :=
  { id := .str "c1"
    raw_data := { args := none, kwargs := some [("campaignId", .str "c1")] }
    href := none, name := none, language_code := none, is_default := none
    created_on := none, description := none, confirmation := none, profile := none
    postal := none, opting_types := none, subscription_notifications := none }

/-- Campaign-listing oracle: one campaign on page 1, nothing after. -/
def campaignsOracle : QParams → List Campaign := fun pl =>
  match lookupKey pl "page" with
  | some 1 => [campA]
  | _ => []

/-- The C9 scenario: campaign_ids omitted and an invalid name filter
operator. -/
def c9run : List NetRequest × Except PyExc (Option (List Nat)) :=
  get_all_contacts campaignsOracle (fun _ _ => []) none (some (.pair "bogus" "Max"))
    none none none none none [] 2

/-- C9 counterexample: with campaign_ids omitted and an invalid name
filter operator, the aggregator issues the campaign-listing requests
(two page fetches) before the operator precondition fails — so a
network call is made before the precondition violation is reported,
refuting the claim for the omitted-campaign_ids case. -/
theorem claim_C9_counterexample :
    c9run.1 = [.campaignsReq [("page", 1)], .campaignsReq [("page", 2)]] ∧
    c9run.1 ≠ [] ∧
    (∃ m, c9run.2 = .error (.assertionError m)) :=
  ⟨rfl,
   by
     rw [show c9run.1 = [.campaignsReq [("page", 1)], .campaignsReq [("page", 2)]] from rfl]
     simp,
   ⟨_, rfl⟩⟩

/-- C9 (amended): precondition violations (invalid filter operator,
duplicate or out-of-range page/per_page) are fatal with an empty network
trace when campaign_ids is supplied non-empty; only when campaign_ids is
omitted or empty do campaign-listing requests precede the filter checks. -/
theorem claim_C9_preconditions_before_network :
    (∀ (α : Type) (fetchC : QParams → List Campaign)
        (fetchS : SearchBody → QParams → List α) (cids : List JVal)
        (name email : Option SearchFilter)
        (cfs : Option (List (String × String × String))) (st : Option (List String))
        (pp pg : Option Int) (params : QParams) (fuel : Nat) (e : PyExc),
        cids ≠ [] →
        buildConditions name email cfs = .error e →
        get_all_contacts fetchC fetchS (some cids) name email cfs st pp pg params fuel =
          ([], .error e)) ∧
    (∀ (α : Type) (fetch : QParams → List α) (pp pg : Option Int) (params : QParams)
        (fuel : Nat) (e : PyExc),
        resolvePaging pp pg params = .error e →
        paginateCall fetch pp pg params fuel = ([], .error e)) ∧
    (∀ (α : Type) (fetchC : QParams → List Campaign)
        (fetchS : SearchBody → QParams → List α) (cids : List JVal)
        (name email : Option SearchFilter)
        (cfs : Option (List (String × String × String))) (st : Option (List String))
        (pp pg : Option Int) (params : QParams) (fuel : Nat)
        (conds : List Condition) (e : PyExc),
        cids ≠ [] →
        buildConditions name email cfs = .ok conds →
        resolvePaging pp pg params = .error e →
        get_all_contacts fetchC fetchS (some cids) name email cfs st pp pg params fuel =
          ([], .error e)) := by
  refine ⟨?_, ?_, ?_⟩
  · intro α fetchC fetchS cids name email cfs st pp pg params fuel e hcne hbc
    have hie : cids.isEmpty = false := by
      cases cids with
      | nil => exact absurd rfl hcne
      | cons a l => rfl
    simp [get_all_contacts, hie, hbc]
  · intro α fetch pp pg params fuel e hre
    simp [paginateCall, hre]
  · intro α fetchC fetchS cids name email cfs st pp pg params fuel conds e hcne hbc hre
    have hie : cids.isEmpty = false := by
      cases cids with
      | nil => exact absurd rfl hcne
      | cons a l => rfl
    have hsub := searchLoop_resolve_error fetchS cids conds pp pg params fuel e hre
    cases st with
    | none => simp [get_all_contacts, hie, hbc, SUBSCRIBER_TYPES, hsub]
    | some l =>
      cases l with
      | nil => simp [get_all_contacts, hie, hbc, SUBSCRIBER_TYPES, hsub]
      | cons t rest => simp [get_all_contacts, hie, hbc, hsub]

/-- Witness for C9 (amended): an invalid operator with campaign_ids
supplied fails with no network trace, as does a duplicate per_page. -/
theorem claim_C9_witness :
    get_all_contacts (fun _ => []) (fun _ _ => ([] : List Nat)) (some [JVal.str "c1"])
        (some (.pair "bogus" "Max")) none none none none none [] 1 =
      ([], .error (.assertionError "operator must be in _allowed_operators")) ∧
    paginateCall (fun _ => ([] : List Nat)) (some 50) none [("perPage", 60)] 1 =
      ([], .error (.assertionError
        "perPage was found in local_params and in per_page. Use one only.")) := by
  constructor
  · exact claim_C9_preconditions_before_network.1 Nat (fun _ => []) (fun _ _ => [])
      [JVal.str "c1"] (some (.pair "bogus" "Max")) none none none none none [] 1 _
      (by simp) rfl
  · exact claim_C9_preconditions_before_network.2.1 Nat (fun _ => []) (some 50) none
      [("perPage", 60)] 1 _ rfl
